import Mathlib

/-!
Verification of the authentication service (controller, service, repository,
Redis store adapter) against its natural-language specification.

The TypeScript source is shallowly embedded:
  * JS `Date` values produced by `new Date()` are modelled by their observable
    calendar components at millisecond precision (`DateComponents`);
    `Date.prototype.toISOString` and `new Date(isoString)` are embedded as
    `DateComponents.toISOString` and `parseISO`.  A string that does not parse
    yields `none`, the embedding of a JS Invalid Date.
  * The Redis keyspace is a pair of finite maps: plain string keys (used by
    SET NX / GET for the username index) and hash keys (used by HSET / HGETALL
    for user records).
  * The `multi().setNX(..).hSet(..).exec()` batch of
    `RedisClientService.saveUserWithUniqueIndex` is one atomic step returning
    the list of per-command replies, per the redis client's documented `exec`
    semantics (an array of bare command replies; the reply of SETNX is the
    integer 1 when the key was created and 0 otherwise, as the source's own
    comment states).  Replies are JS values (`JSVal`) so that the source's
    result inspection (`Array.isArray(results[0]) && results[0][1] === 1`)
    can be transliterated exactly.
  * Asynchronous effects are sequenced explicitly; fallible operations return
    `Except`/`Option`; thrown JS errors are `Except.error` values.
-/

/-- Calendar components of a valid JS `Date` at millisecond precision
(`getUTCFullYear`, `getUTCMonth`+1, `getUTCDate`, `getUTCHours`,
`getUTCMinutes`, `getUTCSeconds`, `getUTCMilliseconds`). -/
structure DateComponents where
  year : Nat
  month : Nat
  day : Nat
  hour : Nat
  minute : Nat
  second : Nat
  ms : Nat
deriving DecidableEq, Repr

/-- Component bounds of every date a JS `Date` object can hold with a
four-digit year; every `new Date()` (current time) satisfies them. -/
def ValidDate (c : DateComponents) : Prop :=
  c.year ≤ 9999 ∧ 1 ≤ c.month ∧ c.month ≤ 12 ∧ 1 ≤ c.day ∧ c.day ≤ 31 ∧
    c.hour ≤ 23 ∧ c.minute ≤ 59 ∧ c.second ≤ 59 ∧ c.ms ≤ 999

instance (c : DateComponents) : Decidable (ValidDate c) := by
  unfold ValidDate; infer_instance

/-- Decimal digit as a character. -/
def digitChar (n : Nat) : Char := Char.ofNat (48 + n)

/-- Two-digit zero-padded decimal rendering. -/
def pad2 (n : Nat) : List Char := [digitChar (n / 10), digitChar (n % 10)]

/-- Three-digit zero-padded decimal rendering (milliseconds). -/
def pad3 (n : Nat) : List Char := digitChar (n / 100) :: pad2 (n % 100)

/-- Four-digit zero-padded decimal rendering (year). -/
def pad4 (n : Nat) : List Char := pad2 (n / 100) ++ pad2 (n % 100)

/-- Character list of `Date.prototype.toISOString`:
`YYYY-MM-DDTHH:mm:ss.sssZ`. -/
def isoChars (c : DateComponents) : List Char :=
  pad4 c.year ++ ['-'] ++ pad2 c.month ++ ['-'] ++ pad2 c.day ++ ['T'] ++
    pad2 c.hour ++ [':'] ++ pad2 c.minute ++ [':'] ++ pad2 c.second ++
    ['.'] ++ pad3 c.ms ++ ['Z']

/-- Embedding of `Date.prototype.toISOString` on a valid date. -/
def DateComponents.toISOString (c : DateComponents) : String :=
  String.mk (isoChars c)

/-- Numeric value of a digit character. -/
def digitVal (c : Char) : Nat := c.toNat - 48

/-- Whether a character is a decimal digit. -/
def isDigitCh (c : Char) : Bool := 48 ≤ c.toNat && c.toNat ≤ 57

/-- Positional parser for the 24-character ISO-8601 form produced by
`toISOString`; embeds `new Date(isoString)` (any other shape would be a JS
Invalid Date, returned here as `none`). -/
def parseIsoChars : List Char → Option DateComponents
  | [y1, y2, y3, y4, '-', m1, m2, '-', d1, d2, 'T', h1, h2, ':', i1, i2,
      ':', s1, s2, '.', f1, f2, f3, 'Z'] =>
    if isDigitCh y1 && isDigitCh y2 && isDigitCh y3 && isDigitCh y4 &&
        isDigitCh m1 && isDigitCh m2 && isDigitCh d1 && isDigitCh d2 &&
        isDigitCh h1 && isDigitCh h2 && isDigitCh i1 && isDigitCh i2 &&
        isDigitCh s1 && isDigitCh s2 && isDigitCh f1 && isDigitCh f2 &&
        isDigitCh f3 then
      some ⟨1000 * digitVal y1 + 100 * digitVal y2 + 10 * digitVal y3 + digitVal y4,
            10 * digitVal m1 + digitVal m2,
            10 * digitVal d1 + digitVal d2,
            10 * digitVal h1 + digitVal h2,
            10 * digitVal i1 + digitVal i2,
            10 * digitVal s1 + digitVal s2,
            100 * digitVal f1 + 10 * digitVal f2 + digitVal f3⟩
    else none
  | _ => none

/-- Embedding of `new Date(s)` for a string argument; `none` is Invalid Date. -/
def parseISO (s : String) : Option DateComponents := parseIsoChars s.data

/-- Domain `User` (src/src/api/auth/auth.model.ts). -/
structure User where
  id : String
  username : String
  passwordHash : String
  createdAt : DateComponents
  updatedAt : DateComponents
deriving DecidableEq, Repr

/-- Storage-facing `RedisUser` (all fields strings, timestamps ISO-8601). -/
structure RedisUser where
  id : String
  username : String
  passwordHash : String
  createdAt : String
  updatedAt : String
deriving DecidableEq, Repr

/-- A Redis hash value: association list of field name to field value. -/
abbrev FieldMap := List (String × String)

/-- The Redis keyspace: plain string keys (username index) and hash keys
(user records).  The two key families carry disjoint name spaces in the
source (`username:` and `user:`). -/
structure Store where
  strings : String → Option String
  hashes : String → Option FieldMap

/-- The empty keyspace. -/
def emptyStore : Store := ⟨fun _ => none, fun _ => none⟩

/-- JS runtime values, as far as the result inspection in
`saveUserWithUniqueIndex` needs them. -/
inductive JSVal where
  | num (n : Int)
  | str (s : String)
  | arr (xs : List JSVal)
  | jsBool (b : Bool)
  | jsNull
  | jsUndefined

/-- JS truthiness. -/
def JSVal.truthy : JSVal → Bool
  | .num n => n ≠ 0
  | .str s => s ≠ ""
  | .arr _ => true
  | .jsBool b => b
  | .jsNull => false
  | .jsUndefined => false

/-- Embedding of `Array.isArray`. -/
def JSVal.isArr : JSVal → Bool
  | .arr _ => true
  | _ => false

/-- JS indexing `v[i]`; `undefined` off the end or on a non-array. -/
def JSVal.idx : JSVal → Nat → JSVal
  | .arr xs, i => (xs.get? i).getD .jsUndefined
  | _, _ => .jsUndefined

/-- JS strict equality `v === 1` against the number literal 1. -/
def JSVal.strictEqOne : JSVal → Bool
  | .num 1 => true
  | _ => false

/-- `RedisClientService.toRedisUser`: timestamps to ISO-8601 strings, other
fields as-is. -/
def toRedisUser (user : User) : RedisUser :=
  ⟨user.id, user.username, user.passwordHash,
    user.createdAt.toISOString, user.updatedAt.toISOString⟩

/-- `RedisClientService.fromRedisUser`: parse the timestamps back; a string
that is not a rendered ISO date would give a JS Invalid Date, embedded as
`none`. -/
def fromRedisUser (redisUser : RedisUser) : Option User :=
  match parseISO redisUser.createdAt, parseISO redisUser.updatedAt with
  | some c, some u =>
    some ⟨redisUser.id, redisUser.username, redisUser.passwordHash, c, u⟩
  | _, _ => none

/-- `RedisClientService.serializeForRedis`: the flat field map that is
written with HSET. -/
def serializeForRedis (redisUser : RedisUser) : FieldMap :=
  [("id", redisUser.id), ("username", redisUser.username),
   ("passwordHash", redisUser.passwordHash),
   ("createdAt", redisUser.createdAt), ("updatedAt", redisUser.updatedAt)]

/-- `RedisClientService.deserializeFromRedis`: read the five fields back from
a hash; a missing field is JS `undefined`, embedded as the empty string. -/
def deserializeFromRedis (data : FieldMap) : RedisUser :=
  ⟨(data.lookup "id").getD "", (data.lookup "username").getD "",
   (data.lookup "passwordHash").getD "",
   (data.lookup "createdAt").getD "", (data.lookup "updatedAt").getD ""⟩

/-- Redis SETNX: write the string key only when absent; the reply is 1 when
the key was created and 0 otherwise. -/
def Store.setNX (s : Store) (key value : String) : Store × Int :=
  match s.strings key with
  | none => (⟨fun k => if k = key then some value else s.strings k, s.hashes⟩, 1)
  | some _ => (s, 0)

/-- Redis HSET with an object argument: set each given field, keeping other
fields of an existing hash; the reply is the number of fields newly added. -/
def Store.hSet (s : Store) (key : String) (fields : FieldMap) : Store × Int :=
  let old := (s.hashes key).getD []
  let kept := old.filter (fun p => (fields.lookup p.1).isNone)
  (⟨s.strings, fun k => if k = key then some (fields ++ kept) else s.hashes k⟩,
    (fields.filter (fun p => (old.lookup p.1).isNone)).length)

/-- Redis HGETALL: the stored hash, or the empty object for a missing key. -/
def Store.hGetAll (s : Store) (key : String) : FieldMap :=
  (s.hashes key).getD []

/-- The atomic `multi().setNX(indexKey, id).hSet(userKey, serialized).exec()`
batch: both commands run in one step and the bare per-command replies come
back in order, per the redis client's documented `exec` semantics. -/
def execSetNXThenHSet (s : Store) (indexKey idValue userKey : String)
    (fields : FieldMap) : Store × List JSVal :=
  let r1 := s.setNX indexKey idValue
  let r2 := r1.1.hSet userKey fields
  (r2.1, [JSVal.num r1.2, JSVal.num r2.2])

/-- Transliteration of the uniqueness inspection in
`RedisClientService.saveUserWithUniqueIndex`:
`!!(results && results.length > 0 && results[0] && Array.isArray(results[0])
&& results[0][1] === 1)`.  `exec` returned the reply array itself, which is
truthy, so the leading null-guard is the constant `true`. -/
def uniquenessCheck (results : List JSVal) : Bool :=
  true && decide (0 < results.length) && (results.headD .jsUndefined).truthy &&
    (results.headD .jsUndefined).isArr && ((results.headD .jsUndefined).idx 1).strictEqOne

/-- Result record of `saveUserWithUniqueIndex`. -/
structure SaveOutcome where
  success : Bool
  userOpt : Option User
deriving DecidableEq, Repr

/-- `RedisClientService.saveUserWithUniqueIndex`: serialize, run the atomic
SETNX-plus-HSET batch, and decide success with `uniquenessCheck`. -/
def saveUserWithUniqueIndex (s : Store) (userKey indexKey : String)
    (user : User) : Store × SaveOutcome :=
  let redisUser := toRedisUser user
  let serialized := serializeForRedis redisUser
  let r := execSetNXThenHSet s indexKey user.id userKey serialized
  let ok := uniquenessCheck r.2
  (r.1, ⟨ok, if ok then some user else none⟩)

/-- `RedisClientService.getUserByKey`: HGETALL, treat an empty hash as
absent, otherwise deserialize. -/
def getUserByKey (s : Store) (key : String) : Option User :=
  let redisUser := s.hGetAll key
  if redisUser.isEmpty then none
  else fromRedisUser (deserializeFromRedis redisUser)

/-- `RedisClientService.getUserIdByIndex`: GET on the index key. -/
def getUserIdByIndex (s : Store) (indexKey : String) : Option String :=
  s.strings indexKey

/-- Log lines emitted by the store adapter lifecycle methods. -/
inductive LogEntry where
  | info (msg : String)
  | errlog (msg desc : String)
  | warnlog (msg desc : String)
deriving DecidableEq, Repr

/-- `RedisClientService.disconnect`: await the underlying client call (its
outcome is the parameter); any error is caught and logged, never re-raised. -/
def RedisClientService.disconnect (underlying : Except String Unit) :
    Except String Unit × List LogEntry :=
  match underlying with
  | .ok _ => (.ok (), [.info "Disconnected from Redis successfully"])
  | .error e => (.ok (), [.errlog "Failed to disconnect from Redis:" e])

/-- `RedisClientService.quit`: await the underlying client call; any error is
caught and logged, never re-raised. -/
def RedisClientService.quit (underlying : Except String Unit) :
    Except String Unit × List LogEntry :=
  match underlying with
  | .ok _ => (.ok (), [.info "Redis client quit successfully"])
  | .error e => (.ok (), [.errlog "Failed to quit Redis client:" e])

/-- The Redis-closing section of `shutdown` in src/src/index.ts: try the
clean `quit()`, and on a raised error fall back to `disconnect()` after a
warning. -/
def shutdownRedisClose (quitUnderlying discUnderlying : Except String Unit) :
    Except String Unit × List LogEntry :=
  match RedisClientService.quit quitUnderlying with
  | (.ok _, l) => (.ok (), l)
  | (.error e, l) =>
    let d := RedisClientService.disconnect discUnderlying
    (d.1, l ++ [.warnlog "Redis quit() failed, falling back to disconnect():" e] ++ d.2)

/-- `DuplicateKeyError` (src/src/api/auth/auth.errors.ts). -/
structure DuplicateKeyError where
  key : String
  message : String
deriving DecidableEq, Repr

/-- The `DuplicateKeyError` constructor: the message argument is optional and
defaults to `Duplicate key: <key>`. -/
def mkDuplicateKeyError (key : String) (message : Option String) :
    DuplicateKeyError :=
  ⟨key, message.getD ("Duplicate key: " ++ key)⟩

/-- `AuthRepository.getUserKey`. -/
def getUserKey (id : String) : String := "user:" ++ id

/-- `AuthRepository.getUsernameIndexKey`. -/
def getUsernameIndexKey (username : String) : String := "username:" ++ username

namespace AuthRepository

/-- `AuthRepository.createUser`: build the `User` (the fresh uuid and the
current time are the `id` and `now` parameters, the values the source draws
from `uuidv4()` and `new Date()`), run `saveUserWithUniqueIndex`, raise
`DuplicateKeyError` when it reports failure, and return `result.user!`
otherwise. -/
def createUser (s : Store) (username passwordHash id : String)
    (now : DateComponents) : Store × Except DuplicateKeyError User :=
  let user : User := ⟨id, username, passwordHash, now, now⟩
  let r := saveUserWithUniqueIndex s (getUserKey id)
    (getUsernameIndexKey username) user
  if r.2.success then (r.1, .ok (r.2.userOpt.getD user))
  else (r.1, .error (mkDuplicateKeyError ("username:" ++ username)
    (some "Username already exists")))

/-- `AuthRepository.findByUsername`: resolve the index, treat a missing or
falsy (empty-string) id as absent, then read the record by key. -/
def findByUsername (s : Store) (username : String) : Option User :=
  match getUserIdByIndex s (getUsernameIndexKey username) with
  | none => none
  | some userId => if userId = "" then none else getUserByKey s (getUserKey userId)

/-- `AuthRepository.findById`: direct record read. -/
def findById (s : Store) (id : String) : Option User :=
  getUserByKey s (getUserKey id)

end AuthRepository

/-- The concrete `HttpError` subclasses (src/src/common/error/http-errors.ts),
distinguished the way `instanceof` distinguishes them. -/
inductive HttpKind where
  | conflict
  | unauthorized
  | responseValidation
  | requestValidation
  | plain
deriving DecidableEq, Repr

/-- An `HttpError` value: subclass, `status`, `message`. -/
structure HttpErrorV where
  kind : HttpKind
  status : Nat
  message : String
deriving DecidableEq, Repr

/-- `new ConflictError(message)` (status 409). -/
def conflictError (message : String) : HttpErrorV := ⟨.conflict, 409, message⟩

/-- `new UnauthorizedError()` with its default message (status 401). -/
def unauthorizedErrorDefault : HttpErrorV := ⟨.unauthorized, 401, "Invalid credentials"⟩

/-- `new ResponseValidationError()` with its default message (status 500). -/
def responseValidationErrorDefault : HttpErrorV :=
  ⟨.responseValidation, 500, "Internal Server Error"⟩

/-- Any JS error value the service layer can catch or re-raise: a
`DuplicateKeyError`, an `HttpError`, or some other opaque error (transport
faults and the like), tagged so distinct foreign errors stay distinct. -/
inductive SvcError where
  | dup (e : DuplicateKeyError)
  | http (e : HttpErrorV)
  | ext (tag : String)
deriving DecidableEq, Repr

/-- Return value of `AuthService.registerUser` / `loginUser`. -/
structure AuthResult where
  username : String
deriving DecidableEq, Repr

namespace AuthService

/-- `AuthService.registerUser`, embedded as the try/catch around the
`authRepository.createUser` call: the parameter is that call's outcome.  An
`instanceof DuplicateKeyError` failure is re-raised as
`new ConflictError('Username already exists')`; any other error is re-thrown
unchanged; success returns `{ username: user.username }`. -/
def registerUser (createUserOutcome : Except SvcError User) :
    Except SvcError AuthResult :=
  match createUserOutcome with
  | .ok user => .ok ⟨user.username⟩
  | .error e =>
    match e with
    | .dup _ => .error (.http (conflictError "Username already exists"))
    | other => .error other

/-- Observable effects performed by `AuthService.loginUser` after the
repository lookup. -/
inductive AuthEffect where
  | findByUsernameFx (username : String)
  | verifyFx (password hash : String)
deriving DecidableEq, Repr

/-- `AuthService.loginUser`: look the user up (the lookup's result is the
`found` parameter, and is recorded as an effect), raise the default
`UnauthorizedError` when absent; otherwise verify the password with the
strategy and raise the same default `UnauthorizedError` on mismatch. -/
def loginUser (found : Option User) (verify : String → String → Bool)
    (username password : String) : Except SvcError AuthResult × List AuthEffect :=
  match found with
  | none => (.error (.http unauthorizedErrorDefault),
      [.findByUsernameFx username])
  | some user =>
    let isPasswordValid := verify password user.passwordHash
    (if isPasswordValid then .ok ⟨user.username⟩
     else .error (.http unauthorizedErrorDefault),
     [.findByUsernameFx username, .verifyFx password user.passwordHash])

end AuthService

/-- The response object the `AuthController.registerUser` in the source
builds before validation: `message` is fixed and `userId` is the JS property
access `user.userId`; `none` embeds JS `undefined`. -/
structure RegisterResponseDraft where
  message : String
  userId : Option String
deriving DecidableEq, Repr

/-- JS property access on the service result object, which carries only a
`username` property: reading `userId` yields `undefined` (`none`). -/
def jsProp (r : AuthResult) (name : String) : Option String :=
  if name = "username" then some r.username else none

/-- `registerResponseSchema.parse` (zod, src/unnamed/part_016): `message` and
`userId` must both be strings; an `undefined` `userId` raises a `ZodError`. -/
def registerResponseSchemaParse (d : RegisterResponseDraft) :
    Except Unit (String × String) :=
  match d.userId with
  | some uid => .ok (d.message, uid)
  | none => .error ()

/-- A sent HTTP response: status code and JSON body as a field list. -/
structure HttpResponse where
  status : Nat
  body : List (String × String)
deriving DecidableEq, Repr

/-- `AuthController.registerUser` (the revision the repository wires up):
build `{message, userId: user.userId}` from the service result, validate it
against `registerResponseSchema` (a `ZodError` becomes a thrown
`ResponseValidationError`), and send 201 with the validated body. -/
def AuthController.registerUser (svcResult : AuthResult) :
    Except HttpErrorV HttpResponse :=
  let response : RegisterResponseDraft :=
    ⟨"User registered successfully", jsProp svcResult "userId"⟩
  match registerResponseSchemaParse response with
  | .ok r => .ok ⟨201, [("message", r.1), ("userId", r.2)]⟩
  | .error _ => .error responseValidationErrorDefault

/-- Rendered decimal digits have the corresponding numeric value. -/
theorem digitVal_digitChar : ∀ k, k < 10 → digitVal (digitChar k) = k := by decide

/-- Rendered decimal digits pass the digit test. -/
theorem isDigitCh_digitChar : ∀ k, k < 10 → isDigitCh (digitChar k) = true := by decide

/-- Parsing the rendered ISO-8601 form of a valid date recovers all
components, milliseconds included. -/
theorem parseIso_roundtrip (c : DateComponents) (h : ValidDate c) :
    parseIsoChars (isoChars c) = some c := by
  obtain ⟨year, month, day, hour, minute, second, ms⟩ := c
  obtain ⟨hy, hm1, hm2, hd1, hd2, hh, hmin, hs, hms⟩ := h
  dsimp only at hy hm1 hm2 hd1 hd2 hh hmin hs hms
  have b1 : year / 100 / 10 < 10 := by omega
  have b2 : year / 100 % 10 < 10 := by omega
  have b3 : year % 100 / 10 < 10 := by omega
  have b4 : year % 100 % 10 < 10 := by omega
  have b5 : month / 10 < 10 := by omega
  have b6 : month % 10 < 10 := by omega
  have b7 : day / 10 < 10 := by omega
  have b8 : day % 10 < 10 := by omega
  have b9 : hour / 10 < 10 := by omega
  have b10 : hour % 10 < 10 := by omega
  have b11 : minute / 10 < 10 := by omega
  have b12 : minute % 10 < 10 := by omega
  have b13 : second / 10 < 10 := by omega
  have b14 : second % 10 < 10 := by omega
  have b15 : ms / 100 < 10 := by omega
  have b16 : ms % 100 / 10 < 10 := by omega
  have b17 : ms % 100 % 10 < 10 := by omega
  simp only [isoChars, pad4, pad2, pad3, List.cons_append, List.nil_append]
  rw [parseIsoChars]
  rw [if_pos]
  · simp only [Option.some.injEq, DateComponents.mk.injEq]
    rw [digitVal_digitChar _ b1, digitVal_digitChar _ b2, digitVal_digitChar _ b3,
      digitVal_digitChar _ b4, digitVal_digitChar _ b5, digitVal_digitChar _ b6,
      digitVal_digitChar _ b7, digitVal_digitChar _ b8, digitVal_digitChar _ b9,
      digitVal_digitChar _ b10, digitVal_digitChar _ b11, digitVal_digitChar _ b12,
      digitVal_digitChar _ b13, digitVal_digitChar _ b14, digitVal_digitChar _ b15,
      digitVal_digitChar _ b16, digitVal_digitChar _ b17]
    omega
  · rw [isDigitCh_digitChar _ b1, isDigitCh_digitChar _ b2, isDigitCh_digitChar _ b3,
      isDigitCh_digitChar _ b4, isDigitCh_digitChar _ b5, isDigitCh_digitChar _ b6,
      isDigitCh_digitChar _ b7, isDigitCh_digitChar _ b8, isDigitCh_digitChar _ b9,
      isDigitCh_digitChar _ b10, isDigitCh_digitChar _ b11, isDigitCh_digitChar _ b12,
      isDigitCh_digitChar _ b13, isDigitCh_digitChar _ b14, isDigitCh_digitChar _ b15,
      isDigitCh_digitChar _ b16, isDigitCh_digitChar _ b17]
    rfl

/-- Parsing the ISO string of a valid date with the `new Date(s)` embedding
recovers the date. -/
theorem parseISO_toISOString (c : DateComponents) (h : ValidDate c) :
    parseISO c.toISOString = some c :=
  parseIso_roundtrip c h

/-- Deserializing the hash written for a `RedisUser` recovers it, whatever
further fields an existing hash contributed behind the five written ones. -/
theorem deserialize_serialize (r : RedisUser) (kept : FieldMap) :
    deserializeFromRedis (serializeForRedis r ++ kept) = r := rfl

/-- Reading a stored `RedisUser` back through `fromRedisUser` after
`toRedisUser` recovers the original `User` when its timestamps are valid
dates. -/
theorem fromRedisUser_toRedisUser (u : User) (h1 : ValidDate u.createdAt)
    (h2 : ValidDate u.updatedAt) : fromRedisUser (toRedisUser u) = some u := by
  simp [fromRedisUser, toRedisUser, parseISO_toISOString _ h1,
    parseISO_toISOString _ h2]

/-- Appending distributes over string data. -/
theorem string_data_append (a b : String) : (a ++ b).data = a.data ++ b.data := by
  cases a; cases b; rfl

/-- Appending a fixed string on the left is injective. -/
theorem string_append_left_cancel {p a b : String} (h : p ++ a = p ++ b) :
    a = b := by
  have h2 := congrArg String.data h
  rw [string_data_append, string_data_append] at h2
  have h3 := List.append_cancel_left h2
  cases a; cases b; exact congrArg String.mk h3

/-- Record keys are injective in the id. -/
theorem getUserKey_inj {a b : String} (h : getUserKey a = getUserKey b) :
    a = b := string_append_left_cancel h

/-- Index keys are injective in the username. -/
theorem getUsernameIndexKey_inj {a b : String}
    (h : getUsernameIndexKey a = getUsernameIndexKey b) : a = b :=
  string_append_left_cancel h

/-- The batch replies are bare numbers, so the inspection that requires
`results[0]` to be an array rejects them: the uniqueness check is false for
every reply list the batch can produce. -/
theorem uniquenessCheck_exec_false (s : Store) (indexKey idValue userKey : String)
    (fields : FieldMap) :
    uniquenessCheck (execSetNXThenHSet s indexKey idValue userKey fields).2 = false := by
  simp [uniquenessCheck, execSetNXThenHSet, JSVal.isArr, Bool.and_false]

/-- `saveUserWithUniqueIndex` reports failure on every input. -/
theorem saveUserWithUniqueIndex_success_false (s : Store)
    (userKey indexKey : String) (user : User) :
    ((saveUserWithUniqueIndex s userKey indexKey user).2).success = false := by
  simp [saveUserWithUniqueIndex, uniquenessCheck_exec_false]

/-- String keys after the batch: the index key is claimed exactly when it was
absent; nothing else changes. -/
theorem save_strings (s : Store) (userKey indexKey : String) (user : User)
    (k : String) :
    ((saveUserWithUniqueIndex s userKey indexKey user).1).strings k =
      match s.strings indexKey with
      | none => if k = indexKey then some user.id else s.strings k
      | some _ => s.strings k := by
  simp only [saveUserWithUniqueIndex, execSetNXThenHSet, Store.setNX, Store.hSet]
  cases s.strings indexKey <;> rfl

/-- Hash keys after the batch: the record key now holds the serialized user
followed by any retained fields of its previous hash; nothing else changes. -/
theorem save_hashes (s : Store) (userKey indexKey : String) (user : User)
    (k : String) :
    ((saveUserWithUniqueIndex s userKey indexKey user).1).hashes k =
      if k = userKey then
        some (serializeForRedis (toRedisUser user) ++
          ((s.hashes userKey).getD []).filter
            (fun p => ((serializeForRedis (toRedisUser user)).lookup p.1).isNone))
      else s.hashes k := by
  simp only [saveUserWithUniqueIndex, execSetNXThenHSet, Store.setNX, Store.hSet]
  cases s.strings indexKey <;> rfl

/-- The store after `createUser` is the store after its save batch. -/
theorem createUser_fst (s : Store) (username passwordHash id : String)
    (now : DateComponents) :
    (AuthRepository.createUser s username passwordHash id now).1 =
      (saveUserWithUniqueIndex s (getUserKey id) (getUsernameIndexKey username)
        ⟨id, username, passwordHash, now, now⟩).1 := by
  simp only [AuthRepository.createUser]
  split <;> rfl

/-- A record whose hash key is absent cannot be found. -/
theorem findById_none_of_hashes_none (s : Store) (id : String)
    (h : s.hashes (getUserKey id) = none) :
    AuthRepository.findById s id = none := by
  unfold AuthRepository.findById getUserByKey Store.hGetAll
  rw [h]
  rfl

/-- A hash holding the serialized user in front is never the empty object. -/
theorem serialize_append_ne_empty (r : RedisUser) (kept : FieldMap) :
    (serializeForRedis r ++ kept).isEmpty = false := rfl

/-- Immediately after `createUser`, the created record can be read back and
equals the freshly built `User`, timestamps at full millisecond precision. -/
theorem findById_after_createUser (s : Store) (username passwordHash id : String)
    (now : DateComponents) (hv : ValidDate now) :
    AuthRepository.findById (AuthRepository.createUser s username passwordHash id now).1 id =
      some ⟨id, username, passwordHash, now, now⟩ := by
  unfold AuthRepository.findById getUserByKey Store.hGetAll
  rw [createUser_fst, save_hashes, if_pos rfl]
  simp only [Option.getD_some, serialize_append_ne_empty, deserialize_serialize,
    Bool.false_eq_true, if_false]
  exact fromRedisUser_toRedisUser ⟨id, username, passwordHash, now, now⟩ hv hv

/-- `createUser` for one id leaves every other id's record untouched. -/
theorem findById_after_createUser_other (s : Store)
    (username passwordHash id' : String) (now : DateComponents) (id : String)
    (hne : id ≠ id') :
    AuthRepository.findById (AuthRepository.createUser s username passwordHash id' now).1 id =
      AuthRepository.findById s id := by
  have hk : getUserKey id ≠ getUserKey id' := fun hc => hne (getUserKey_inj hc)
  unfold AuthRepository.findById getUserByKey Store.hGetAll
  rw [createUser_fst, save_hashes, if_neg hk]

/-- Stores reachable from the empty keyspace by sequences of `createUser`
calls; each call carries a fresh uuid (its record key is unused) and a valid
current time, the guarantees `uuidv4()` and `new Date()` give the source. -/
inductive ReachableStore : Store → Prop where
  | base : ReachableStore emptyStore
  | step (s : Store) (username passwordHash id : String) (now : DateComponents) :
      ReachableStore s → ValidDate now → s.hashes (getUserKey id) = none →
      ReachableStore (AuthRepository.createUser s username passwordHash id now).1

/-- The coupling invariant claimed for the store: a username index entry
exists if and only if a matching `User` record exists — the index never
dangles, and no record exists without its index entry. -/
def IndexRecordCoupled (s : Store) : Prop :=
  (∀ username id, s.strings (getUsernameIndexKey username) = some id →
    ∃ user, AuthRepository.findById s id = some user ∧
      user.username = username ∧ user.id = id) ∧
  (∀ id user, AuthRepository.findById s id = some user →
    s.strings (getUsernameIndexKey user.username) = some id)

/-- A fixed sample timestamp. -/
def t0 : DateComponents := ⟨2024, 1, 2, 3, 4, 5, 6⟩

/-- The store after one registration of `alice`. -/
def store1 : Store :=
  (AuthRepository.createUser emptyStore "alice" "hash1" "id1" t0).1

/-- The store after a second registration attempt for `alice` under a fresh
id, as a lost race leaves it. -/
def store2 : Store :=
  (AuthRepository.createUser store1 "alice" "hash2" "id2" t0).1

/-- A sample user with valid timestamps. -/
def user0 : User := ⟨"id1", "alice", "hash1", t0, t0⟩

/-- A torn store: an index entry for `ghost` with no record behind it. -/
def tornStore : Store :=
  ⟨fun k => if k = "username:ghost" then some "gid" else none, fun _ => none⟩

/-- C1: even when the username index key is absent, so that the batch's
conditional-set creates the index entry (the situation whose reply signals a
won race), `AuthRepository.createUser` still raises the DuplicateUsername
error: the result inspection demands that `results[0]` be an array, but the
client's batch replies are bare numbers, so no caller is ever treated as the
winner and the claimed success path is unreachable. -/
theorem createUser_raises_even_for_winner (s : Store)
    (username passwordHash id : String) (now : DateComponents)
    (hfresh : s.strings (getUsernameIndexKey username) = none) :
    (AuthRepository.createUser s username passwordHash id now).2 =
      .error (mkDuplicateKeyError ("username:" ++ username)
        (some "Username already exists")) ∧
    ((AuthRepository.createUser s username passwordHash id now).1).strings
      (getUsernameIndexKey username) = some id := by
  constructor
  · simp only [AuthRepository.createUser, saveUserWithUniqueIndex_success_false]
    rfl
  · rw [createUser_fst, save_strings, hfresh]
    simp

/-- Witness for C1: the very first registration into the empty store creates
the index entry yet is rejected as a duplicate. -/
theorem createUser_raises_even_for_winner_witness :
    (AuthRepository.createUser emptyStore "alice" "hash1" "id1" t0).2 =
      .error (mkDuplicateKeyError "username:alice"
        (some "Username already exists")) ∧
    ((AuthRepository.createUser emptyStore "alice" "hash1" "id1" t0).1).strings
      (getUsernameIndexKey "alice") = some "id1" :=
  createUser_raises_even_for_winner emptyStore "alice" "hash1" "id1" t0 rfl

/-- C2 counterexample: a reachable store violates the claimed two-way
index-record coupling: after a second `createUser` for `alice` under a fresh
id, the loser's record `user:id2` exists while the `alice` index still maps
to `id1`, so a record exists without its index entry. -/
theorem coupling_violated_in_reachable_store :
    ∃ s, ReachableStore s ∧ ¬ IndexRecordCoupled s := by
  refine ⟨store2, ?_, ?_⟩
  · exact ReachableStore.step store1 "alice" "hash2" "id2" t0
      (ReachableStore.step emptyStore "alice" "hash1" "id1" t0
        ReachableStore.base (by decide) rfl)
      (by decide) (by rfl)
  · intro hcoupled
    have h2 := hcoupled.2 "id2" ⟨"id2", "alice", "hash2", t0, t0⟩ (by rfl)
    have h3 : store2.strings (getUsernameIndexKey "alice") = some "id1" := by rfl
    rw [h3] at h2
    exact absurd h2 (by decide)

/-- C2 (amended): in every reachable store the forward half of the coupling
holds — each username index entry points to an existing user record with that
username under that id.  The reverse half is dropped: a lost duplicate
registration writes its record anyway and leaves it behind without an index
entry. -/
theorem reachable_index_entry_has_record : ∀ s, ReachableStore s →
    ∀ username id, s.strings (getUsernameIndexKey username) = some id →
    ∃ user, AuthRepository.findById s id = some user ∧
      user.username = username ∧ user.id = id := by
  intro s hs
  induction hs with
  | base =>
    intro username id h
    exact absurd h (by simp [emptyStore])
  | step s u2 ph id2 now hr hv hfresh ih =>
    intro username id h
    rw [createUser_fst, save_strings] at h
    rcases hcase : s.strings (getUsernameIndexKey u2) with _ | oldid
    · rw [hcase] at h
      dsimp only at h
      by_cases hk : getUsernameIndexKey username = getUsernameIndexKey u2
      · rw [if_pos hk] at h
        injection h with hid2
        subst hid2
        have hu : username = u2 := getUsernameIndexKey_inj hk
        subst hu
        exact ⟨⟨_, _, _, _, _⟩, findById_after_createUser _ _ _ _ _ hv, rfl, rfl⟩
      · rw [if_neg hk] at h
        obtain ⟨user, hfind, hname, hid⟩ := ih username id h
        refine ⟨user, ?_, hname, hid⟩
        have hne : id ≠ id2 := by
          intro he
          have hnone : AuthRepository.findById s id = none :=
            findById_none_of_hashes_none s id (by rw [he]; exact hfresh)
          rw [hnone] at hfind
          exact Option.noConfusion hfind
        rw [findById_after_createUser_other s u2 ph id2 now id hne]
        exact hfind
    · rw [hcase] at h
      dsimp only at h
      obtain ⟨user, hfind, hname, hid⟩ := ih username id h
      refine ⟨user, ?_, hname, hid⟩
      have hne : id ≠ id2 := by
        intro he
        have hnone : AuthRepository.findById s id = none :=
          findById_none_of_hashes_none s id (by rw [he]; exact hfresh)
        rw [hnone] at hfind
        exact Option.noConfusion hfind
      rw [findById_after_createUser_other s u2 ph id2 now id hne]
      exact hfind

/-- Witness for the amended C2: in the store reached by one registration, the
`alice` index entry is backed by the matching record. -/
theorem reachable_index_entry_has_record_witness :
    ∃ user, AuthRepository.findById store1 "id1" = some user ∧
      user.username = "alice" ∧ user.id = "id1" :=
  reachable_index_entry_has_record store1
    (ReachableStore.step emptyStore "alice" "hash1" "id1" t0
      ReachableStore.base (by decide) rfl)
    "alice" "id1" (by rfl)

/-- C3: the two failing runs of `loginUser` — user absent, and user found but
password verification false — raise one and the same error value: the
`UnauthorizedError` subclass with status 401 and the default message
"Invalid credentials", so the failures are indistinguishable by type,
message and status. -/
theorem loginUser_failures_identical (user : User)
    (verify1 verify2 : String → String → Bool) (un1 pw1 un2 pw2 : String)
    (hbad : verify2 pw2 user.passwordHash = false) :
    ∃ e : HttpErrorV,
      (AuthService.loginUser none verify1 un1 pw1).1 = .error (.http e) ∧
      (AuthService.loginUser (some user) verify2 un2 pw2).1 = .error (.http e) ∧
      e.kind = .unauthorized ∧ e.status = 401 ∧
      e.message = "Invalid credentials" := by
  refine ⟨unauthorizedErrorDefault, rfl, ?_, rfl, rfl, rfl⟩
  simp [AuthService.loginUser, hbad]

/-- Witness for C3 at a concrete user and an always-failing verifier. -/
theorem loginUser_failures_identical_witness :
    ∃ e : HttpErrorV,
      (AuthService.loginUser none (fun _ _ => false) "bob" "x").1 = .error (.http e) ∧
      (AuthService.loginUser (some user0) (fun _ _ => false) "alice" "y").1 = .error (.http e) ∧
      e.kind = .unauthorized ∧ e.status = 401 ∧
      e.message = "Invalid credentials" :=
  loginUser_failures_identical user0 (fun _ _ => false) (fun _ _ => false)
    "bob" "x" "alice" "y" rfl

/-- C4 counterexample: at the concrete duplicate-key failure, the service
maps it to a `ConflictError` whose message is "Username already exists"
(capital U), which is not the message "username already exists" the claim
states. -/
theorem registerUser_conflict_message_counterexample :
    AuthService.registerUser (.error (.dup (mkDuplicateKeyError
        "username:alice" (some "Username already exists")))) =
      .error (.http (conflictError "Username already exists")) ∧
    (conflictError "Username already exists").message ≠
      "username already exists" :=
  ⟨rfl, by decide⟩

/-- C4 (amended): `registerUser` maps every `DuplicateKeyError` raised by
`createUser` to a `ConflictError` with HTTP status 409 and the generic
message "Username already exists", re-raises any non-duplicate error
unchanged (the same error value, unwrapped), and passes successes through as
the registered username. -/
theorem registerUser_error_mapping (d : DuplicateKeyError) (e : SvcError)
    (hnd : ∀ d2 : DuplicateKeyError, e ≠ .dup d2) (u : User) :
    AuthService.registerUser (.error (.dup d)) =
      .error (.http (conflictError "Username already exists")) ∧
    (conflictError "Username already exists").status = 409 ∧
    AuthService.registerUser (.error e) = .error e ∧
    AuthService.registerUser (.ok u) = .ok ⟨u.username⟩ := by
  refine ⟨rfl, rfl, ?_, rfl⟩
  cases e with
  | dup d2 => exact absurd rfl (hnd d2)
  | http e2 => rfl
  | ext tag => rfl

/-- Witness for the amended C4 at a concrete duplicate error, a concrete
foreign transport error, and a concrete user. -/
theorem registerUser_error_mapping_witness :
    AuthService.registerUser (.error (.dup (mkDuplicateKeyError
        "username:alice" (some "Username already exists")))) =
      .error (.http (conflictError "Username already exists")) ∧
    (conflictError "Username already exists").status = 409 ∧
    AuthService.registerUser (.error (.ext "ECONNREFUSED")) =
      .error (.ext "ECONNREFUSED") ∧
    AuthService.registerUser (.ok user0) = .ok ⟨"alice"⟩ :=
  registerUser_error_mapping
    (mkDuplicateKeyError "username:alice" (some "Username already exists"))
    (.ext "ECONNREFUSED") (fun d2 => by simp) user0

/-- C5: the storage mapping is total and lossless: deserializing the
serialized form of any `User` with valid timestamps returns the identical
`User` (ISO-8601 strings preserve the milliseconds), and reading back the id
just written by `createUser` yields exactly the `User` the repository
built. -/
theorem user_roundtrip_lossless (u : User) (h1 : ValidDate u.createdAt)
    (h2 : ValidDate u.updatedAt) (s : Store)
    (username passwordHash id : String) (now : DateComponents)
    (hv : ValidDate now) :
    fromRedisUser (deserializeFromRedis (serializeForRedis (toRedisUser u))) =
      some u ∧
    AuthRepository.findById
        (AuthRepository.createUser s username passwordHash id now).1 id =
      some ⟨id, username, passwordHash, now, now⟩ := by
  constructor
  · have hde : deserializeFromRedis (serializeForRedis (toRedisUser u)) =
        toRedisUser u := rfl
    rw [hde]
    exact fromRedisUser_toRedisUser u h1 h2
  · exact findById_after_createUser s username passwordHash id now hv

/-- Witness for C5 at a concrete user and a concrete fresh registration. -/
theorem user_roundtrip_lossless_witness :
    fromRedisUser (deserializeFromRedis (serializeForRedis (toRedisUser user0))) =
      some user0 ∧
    AuthRepository.findById
        (AuthRepository.createUser emptyStore "bob" "hash9" "id9" t0).1 "id9" =
      some ⟨"id9", "bob", "hash9", t0, t0⟩ :=
  user_roundtrip_lossless user0 (by decide) (by decide) emptyStore
    "bob" "hash9" "id9" t0 (by decide)

/-- C6: when the username index entry exists but the record it points to is
missing (absent hash key or empty hash), `findByUsername` returns absent; the
embedding is a total function into `Option`, mirroring that this path of the
source throws nothing. -/
theorem findByUsername_torn_state_absent (s : Store) (username id : String)
    (hidx : s.strings (getUsernameIndexKey username) = some id)
    (hrec : s.hashes (getUserKey id) = none ∨
      s.hashes (getUserKey id) = some []) :
    AuthRepository.findByUsername s username = none := by
  unfold AuthRepository.findByUsername getUserIdByIndex
  rw [hidx]
  rcases hrec with h | h <;> simp [getUserByKey, Store.hGetAll, h]

/-- Witness for C6 at the concrete torn store. -/
theorem findByUsername_torn_state_absent_witness :
    AuthRepository.findByUsername tornStore "ghost" = none :=
  findByUsername_torn_state_absent tornStore "ghost" "gid" rfl (Or.inl rfl)

/-- C7: composed with the service result of a successful registration for
`alice` — which carries only a `username` — the controller revision in the
source builds its draft from the absent `userId` property, response
validation fails, and a 500 `ResponseValidationError` is raised: the
response is not the claimed 201 body carrying `username: "alice"` (nor does
a validated success body ever contain a username field). -/
theorem registerController_alice_not_201 :
    AuthController.registerUser ⟨"alice"⟩ = .error responseValidationErrorDefault ∧
    responseValidationErrorDefault.status = 500 :=
  ⟨rfl, rfl⟩

/-- C9: `disconnect` and `quit` catch any underlying client error and only
log it, so two consecutive calls of either never raise, and the shutdown
path attempts the clean quit with a disconnect fallback and never raises
either. -/
theorem lifecycle_never_raises (u1 u2 q1 q2 qa da : Except String Unit) :
    (RedisClientService.disconnect u1).1 = .ok () ∧
    (RedisClientService.disconnect u2).1 = .ok () ∧
    (RedisClientService.quit q1).1 = .ok () ∧
    (RedisClientService.quit q2).1 = .ok () ∧
    (shutdownRedisClose qa da).1 = .ok () := by
  refine ⟨?_, ?_, ?_, ?_, ?_⟩
  · cases u1 <;> rfl
  · cases u2 <;> rfl
  · cases q1 <;> rfl
  · cases q2 <;> rfl
  · cases qa <;> rfl

/-- C10: when the repository lookup is absent, `loginUser` raises the
`UnauthorizedError` having performed no verification effect; the verify
effect occurs exactly when a user record was found, so the two failure paths
differ in effects while returning the identical error. -/
theorem loginUser_absent_skips_verify (verify : String → String → Bool)
    (username password : String) :
    AuthService.loginUser none verify username password =
      (.error (.http unauthorizedErrorDefault), [.findByUsernameFx username]) ∧
    ∀ user : User,
      (AuthService.loginUser (some user) verify username password).2 =
        [.findByUsernameFx username, .verifyFx password user.passwordHash] := by
  constructor
  · rfl
  · intro user
    simp [AuthService.loginUser]
